import Mathlib

/-
Shallow embedding of os_brick/initiator/connectors/nvme.py (class NVMeConnector).

External effects (running privileged commands, sleeping) are modelled by
oracle parameters: an execution oracle maps the attempt number to either a
process-execution failure or the captured stdout, and sleeps are collected
into an explicit trace.  Machine state (the set of visible NVMe device
nodes) is only ever observed through these oracles, mirroring the source,
which only observes the kernel device namespace through `nvme list`.
-/

/-- Error kinds raised by the source: `putils.ProcessExecutionError`,
`exception.CommandExecutionFailed` (nvme.py line 114) and
`exception.VolumePathsNotFound` (lines 123 and 237). -/
inductive BrickError where
  | processExecutionError
  | commandExecutionFailed
  | volumePathsNotFound
deriving DecidableEq, Repr

/-- The characters of the literal part of the device pattern
`/dev/nvme[0-9]+n[0-9]+` (nvme.py line 91). -/
def nvmeHead : List Char := "/dev/nvme".data

/-- Strip a literal character sequence from the front of a character list,
returning the remainder, or `none` when the list does not start with it. -/
def dropLit : List Char → List Char → Option (List Char)
  | [], cs => some cs
  | _ :: _, [] => none
  | p :: ps, c :: cs => if c = p then dropLit ps cs else none

/-- Greedily split off the leading run of decimal digits, as the regex
atom `[0-9]+` does (greedy matching). -/
def takeDigits : List Char → List Char × List Char
  | [] => ([], [])
  | c :: cs =>
    if c.isDigit then
      let p := takeDigits cs
      (c :: p.1, p.2)
    else ([], c :: cs)

/-- `re.match(r'/dev/nvme[0-9]+n[0-9]+', line)` followed by `.group(0)`
(nvme.py lines 99-101): anchored at the start of the line, it returns the
matched characters `/dev/nvme<digits>n<digits>` and ignores the rest of
the line. -/
def matchNvme (line : List Char) : Option (List Char) :=
  match dropLit nvmeHead line with
  | none => none
  | some rest =>
    match takeDigits rest with
    | ([], _) => none
    | (d1, r1) =>
      match r1 with
      | 'n' :: r2 =>
        match takeDigits r2 with
        | ([], _) => none
        | (d2, _) => some (nvmeHead ++ d1 ++ 'n' :: d2)
      | _ => none

/-- Python `out.split('\n')` (nvme.py line 98): split on every newline,
keeping empty segments, and the empty input yields one empty line. -/
def splitLines : List Char → List (List Char)
  | [] => [[]]
  | c :: rest =>
    let r := splitLines rest
    if c = '\n' then [] :: r
    else
      match r with
      | [] => [[c]]
      | l :: ls => (c :: l) :: ls

/-- The parsing loop of `_get_nvme_devices` (nvme.py lines 98-101): every
line of the command output that matches the device pattern contributes its
matched portion, in line order. -/
def parseNvmeDevices (out : String) : List String :=
  ((splitLines out.data).filterMap matchNvme).map String.mk

/-- `cmd = ['nvme', 'list']` (nvme.py line 92). -/
def nvmeListCmd : List String := ["nvme", "list"]

/-- `DEVICE_SCAN_ATTEMPTS_DEFAULT = 5` (nvme.py line 26). -/
def DEVICE_SCAN_ATTEMPTS_DEFAULT : Nat := 5

/-- The retry loop of `_get_nvme_devices` (nvme.py lines 93-114) over the
remaining attempt numbers.  `exec` maps an attempt number to the outcome
of `self._execute(*cmd, ...)`: `Except.error ()` models
`putils.ProcessExecutionError`, `Except.ok out` models captured stdout.
On success the parsed devices are returned; on failure the loop sleeps
`retry ** 2` (recorded in the first component) and moves on; when the
attempt numbers run out, the `for`/`else` clause raises
`CommandExecutionFailed`. -/
def getNvmeDevicesFrom (exec : Nat → Except Unit String) :
    List Nat → List Nat × Except BrickError (List String)
  | [] => ([], Except.error BrickError.commandExecutionFailed)
  | r :: rs =>
    match exec r with
    | Except.ok out => ([], Except.ok (parseNvmeDevices out))
    | Except.error _ =>
      let p := getNvmeDevicesFrom exec rs
      (r * r :: p.1, p.2)

/-- `_get_nvme_devices` (nvme.py lines 88-114): `for retry in
range(1, self.device_scan_attempts + 1)`. -/
def getNvmeDevices (exec : Nat → Except Unit String)
    (device_scan_attempts : Nat) : List Nat × Except BrickError (List String) :=
  getNvmeDevicesFrom exec (List.range' 1 device_scan_attempts)

/-- Modelled from the spec: `os_brick.utils.retry`, the bounded retry
wrapper used at nvme.py lines 116 and 126, is code of this repository
that is not under src/.  Spec section 4.2: "given an operation and a
predicate identifying retryable error kinds, re-invoke the operation on
failure up to a bounded attempt count, surfacing the last error once
exhausted", with the attempt count configurable (spec section 5).
`retryFrom retryOn op i fuel` performs attempt `i`, then up to `fuel`
further attempts; it returns the number of attempts actually performed
together with the final outcome. -/
def retryFrom {α : Type} (retryOn : BrickError → Bool)
    (op : Nat → Except BrickError α) : Nat → Nat → Nat × Except BrickError α
  | i, 0 => (1, op i)
  | i, fuel + 1 =>
    match op i with
    | Except.ok a => (1, Except.ok a)
    | Except.error e =>
      if retryOn e then
        ((retryFrom retryOn op (i + 1) fuel).1 + 1,
         (retryFrom retryOn op (i + 1) fuel).2)
      else (1, Except.error e)

/-- The retryable-error predicate of the decorator
`@utils.retry(exceptions=exception.VolumePathsNotFound)` on
`_get_device_path` (nvme.py line 116). -/
def retryOnPathsNotFound : BrickError → Bool
  | BrickError.volumePathsNotFound => true
  | _ => false

/-- Python `list(set(all_nvme_devices) - set(current_nvme_devices))`
(nvme.py line 121): the elements of `all` that are not in `current`,
without duplicates.  The order in which CPython lists the members of a
set depends on salted string hashes; the first-occurrence order fixed
here is a modelling artifact, and no theorem below depends on it. -/
def setDiff (all current : List String) : List String :=
  (all.filter (fun x => decide (x ∉ current))).dedup

/-- The body of one attempt of `_get_device_path` (nvme.py lines
116-124) during appearance detection: enumerate the devices (the
`i`-th post-attach enumeration is `listDev (i + 1)`; `listDev 0` is
reserved for the pre-attach snapshot of `connect_volume`), diff against
the snapshot, raise `VolumePathsNotFound` on an empty diff.  A
`CommandExecutionFailed` from the enumeration propagates. -/
def getDevicePathOnce (listDev : Nat → Except BrickError (List String))
    (current_nvme_devices : List String) (i : Nat) :
    Except BrickError (List String) :=
  match listDev (i + 1) with
  | Except.error e => Except.error e
  | Except.ok all_nvme_devices =>
    let path := setDiff all_nvme_devices current_nvme_devices
    if path.isEmpty then Except.error BrickError.volumePathsNotFound
    else Except.ok path

/-- The connection description consumed by the connector.  Keys of the
Python dict `connection_properties` become fields; `device_path` uses
`none` for Python `None` (the claims below never inspect a descriptor
whose `device_path` key is altogether missing, which in Python would
raise `KeyError`). -/
structure ConnectionProperties where
  nqn : String := ""
  target_portal : String := ""
  target_port : String := ""
  transport_type : String := ""
  host_nqn : Option String := none
  device_path : Option String := none
deriving DecidableEq, Repr

/-- The dict returned by `connect_volume`: `{'type': 'block', 'path': p}`
(nvme.py lines 148 and 166).  The spec's DeviceInfo calls the first
field `kind`; the source dict key is `'type'`. -/
structure DeviceInfo where
  type : String
  path : String
deriving DecidableEq, Repr

/-- The attach command line built at nvme.py lines 154-161. -/
def buildConnectCmd (props : ConnectionProperties) : List String :=
  let cmd := ["nvme", "connect",
              "-t", props.transport_type,
              "-n", props.nqn,
              "-a", props.target_portal,
              "-s", props.target_port]
  match props.host_nqn with
  | some h => cmd ++ ["-q", h]
  | none => cmd

/-- nvme.py lines 165-169: take `path[0]` from the list produced by
`_get_device_path` and return `{'type': 'block', 'path': path[0]}`,
passing the attempt count and any error through.  The `[]` case is
unreachable, since `_get_device_path` only ever returns a non-empty
diff; it mirrors the `IndexError` that `path[0]` would raise. -/
def selectDevice (r : Nat × Except BrickError (List String)) :
    Nat × Except BrickError DeviceInfo :=
  match r with
  | (cnt, Except.error e) => (cnt, Except.error e)
  | (cnt, Except.ok []) => (cnt, Except.error BrickError.volumePathsNotFound)
  | (cnt, Except.ok (p :: _)) => (cnt, Except.ok { type := "block", path := p })

/-- `connect_volume` (nvme.py lines 131-169).  `listDev k` is the outcome
of the `k`-th call to `_get_nvme_devices` in this invocation (`k = 0`:
the pre-attach snapshot of line 146; `k ≥ 1`: the enumeration inside the
`k`-th appearance-detection attempt).  `tryConnect` is the outcome of
`_try_connect_nvme` (lines 126-129, command retry included) on the built
command.  `maxDetectAttempts` is the configured attempt budget of the
appearance-detection retry wrapper.  Returns the number of
appearance-detection attempts performed and the result. -/
def connect_volume (props : ConnectionProperties)
    (listDev : Nat → Except BrickError (List String))
    (tryConnect : List String → Except BrickError Unit)
    (maxDetectAttempts : Nat) : Nat × Except BrickError DeviceInfo :=
  match listDev 0 with
  | Except.error e => (0, Except.error e)
  | Except.ok current_nvme_devices =>
    match tryConnect (buildConnectCmd props) with
    | Except.error e => (0, Except.error e)
    | Except.ok _ =>
      selectDevice (retryFrom retryOnPathsNotFound
        (getDevicePathOnce listDev current_nvme_devices)
        0 (maxDetectAttempts - 1))

/-- The dict `device_info` passed to `disconnect_volume`; only its
`'path'` key is read (nvme.py line 189), with `none` for a missing key
or Python `None`. -/
structure DeviceInfoDict where
  path : Option String := none
deriving DecidableEq, Repr

/-- Python `x or ''` on an optional string: `None` and `''` both give
`''`. -/
def orEmptyString : Option String → String
  | some s => s
  | none => ""

/-- The target-path resolution of `disconnect_volume` (nvme.py lines
189-192): `if device_info and device_info.get('path')` prefer that path;
any falsy `device_info` path (absent dict, absent key, `None`, or the
empty string) falls back to `connection_properties['device_path'] or ''`. -/
def resolveDevicePath (props : ConnectionProperties)
    (device_info : Option DeviceInfoDict) : String :=
  match device_info with
  | some d =>
    match d.path with
    | some p => if p = "" then orEmptyString props.device_path else p
    | none => orEmptyString props.device_path
  | none => orEmptyString props.device_path

/-- The detach command line built at nvme.py lines 203-207. -/
def buildDisconnectCmd (device_path : String) : List String :=
  ["nvme", "disconnect", "-d", device_path]

/-- `disconnect_volume` (nvme.py lines 171-220).  `currentRes` is the
outcome of the `_get_nvme_devices()` call of line 193; `cmdOk` tells
whether the detach command of lines 208-212 would succeed (false models
`putils.ProcessExecutionError`).  The result records whether the detach
command was issued, and the returned or raised outcome: line 197 returns
without issuing a command when the resolved path is not currently
enumerated; on command failure the error is re-raised unless
`ignore_errors` is set (lines 214-220).  The `force` parameter is
accepted and ignored, as in the source. -/
def disconnect_volume (props : ConnectionProperties)
    (device_info : Option DeviceInfoDict)
    (currentRes : Except BrickError (List String))
    (cmdOk : Bool) (force : Bool) (ignore_errors : Bool) :
    Bool × Except BrickError Unit :=
  let device_path := resolveDevicePath props device_info
  match currentRes with
  | Except.error e => (false, Except.error e)
  | Except.ok current_nvme_devices =>
    if device_path ∈ current_nvme_devices then
      if cmdOk then (true, Except.ok ())
      else if ignore_errors then (true, Except.ok ())
      else (true, Except.error BrickError.processExecutionError)
    else (false, Except.ok ())

/-- `get_volume_paths` (nvme.py lines 83-86): a one-element list holding
`connection_properties['device_path']`, whatever that value is. -/
def get_volume_paths (props : ConnectionProperties) : List (Option String) :=
  [props.device_path]

/-- `extend_volume` (nvme.py lines 222-237).  Python `if volume_paths:`
is the non-emptiness test on the list; `Except.ok paths` models
delegating to `self._linuxscsi.extend_volume(volume_paths)` (the
external resize primitive) with exactly those paths, and the `else`
branch raises `VolumePathsNotFound`. -/
def extend_volume (props : ConnectionProperties) :
    Except BrickError (List (Option String)) :=
  let volume_paths := get_volume_paths props
  if volume_paths ≠ [] then Except.ok volume_paths
  else Except.error BrickError.volumePathsNotFound

instance {ε α : Type} [DecidableEq ε] [DecidableEq α] : DecidableEq (Except ε α) := fun x y =>
  match x, y with
  | Except.error a, Except.error b =>
    if h : a = b then isTrue (by rw [h]) else isFalse (by simp [h])
  | Except.error _, Except.ok _ => isFalse (by simp)
  | Except.ok _, Except.error _ => isFalse (by simp)
  | Except.ok a, Except.ok b =>
    if h : a = b then isTrue (by rw [h]) else isFalse (by simp [h])

/-- When every attempt in the list fails, the enumeration loop sleeps
the square of every attempt number and then raises
`CommandExecutionFailed`. -/
theorem getNvmeDevicesFrom_all_fail (exec : Nat → Except Unit String) :
    ∀ l : List Nat, (∀ r ∈ l, exec r = Except.error ()) →
      getNvmeDevicesFrom exec l =
        (l.map (fun r => r * r), Except.error BrickError.commandExecutionFailed) := by
  intro l
  induction l with
  | nil => intro _; rfl
  | cons r rs ih =>
    intro h
    have hr : exec r = Except.error () := h r (List.mem_cons_self r rs)
    simp [getNvmeDevicesFrom, hr,
      ih (fun x hx => h x (List.mem_cons_of_mem r hx))]

/-- When the attempts before `k` fail and attempt `k` succeeds, the
enumeration loop sleeps the square of every failed attempt number and
returns the devices parsed from attempt `k`'s output. -/
theorem getNvmeDevicesFrom_first_ok (exec : Nat → Except Unit String) :
    ∀ (l1 : List Nat) (k : Nat) (l2 : List Nat) (out : String),
      (∀ r ∈ l1, exec r = Except.error ()) → exec k = Except.ok out →
      getNvmeDevicesFrom exec (l1 ++ k :: l2) =
        (l1.map (fun r => r * r), Except.ok (parseNvmeDevices out)) := by
  intro l1
  induction l1 with
  | nil => intro k l2 out _ hk; simp [getNvmeDevicesFrom, hk]
  | cons r rs ih =>
    intro k l2 out h hk
    have hr : exec r = Except.error () := h r (List.mem_cons_self r rs)
    simp [getNvmeDevicesFrom, hr,
      ih k l2 out (fun x hx => h x (List.mem_cons_of_mem r hx)) hk]

/-- Splitting `range' 1 n` around a chosen attempt number `k`. -/
theorem range'_split_at (k n : Nat) (h1 : 1 ≤ k) (h2 : k ≤ n) :
    List.range' 1 n = List.range' 1 (k - 1) ++ k :: List.range' (k + 1) (n - k) := by
  have e1 : List.range' 1 (k - 1) ++ List.range' (1 + 1 * (k - 1)) (n - (k - 1))
      = List.range' 1 ((n - (k - 1)) + (k - 1)) := List.range'_append 1 (k - 1) (n - (k - 1)) 1
  have hk : 1 + 1 * (k - 1) = k := by omega
  have hn : (n - (k - 1)) + (k - 1) = n := by omega
  have hm : n - (k - 1) = (n - k) + 1 := by omega
  rw [hk, hn, hm] at e1
  rw [← e1, List.range'_succ]

/-- C4: every device enumeration retries a failing listing command up to
`device_scan_attempts` (default 5) times, sleeping `attempt ^ 2` time
units between attempts (attempts counted from 1); if every attempt
fails it raises `CommandExecutionFailed`, and if attempt `k` is the
first to succeed it returns the device list parsed from that attempt's
output, having slept `1 ^ 2, ..., (k - 1) ^ 2`. -/
theorem getNvmeDevices_retry_backoff (exec : Nat → Except Unit String) (n : Nat) :
    ((∀ i ∈ List.range' 1 n, exec i = Except.error ()) →
      (getNvmeDevices exec n).2 = Except.error BrickError.commandExecutionFailed) ∧
    (∀ k out, 1 ≤ k → k ≤ n → exec k = Except.ok out →
      (∀ i ∈ List.range' 1 (k - 1), exec i = Except.error ()) →
      getNvmeDevices exec n =
        ((List.range' 1 (k - 1)).map (fun r => r * r),
         Except.ok (parseNvmeDevices out))) := by
  constructor
  · intro h
    rw [getNvmeDevices, getNvmeDevicesFrom_all_fail exec _ h]
  · intro k out h1 h2 hk h
    rw [getNvmeDevices, range'_split_at k n h1 h2,
      getNvmeDevicesFrom_first_ok exec _ k _ out h hk]

/-- A concrete execution oracle: the listing command fails on attempts
1 and 2 and succeeds from attempt 3 on, producing one device line. -/
def execTwoFailures : Nat → Except Unit String :=
  fun i =>
    if i ≤ 2 then Except.error ()
    else Except.ok "Node          SN      Model\n/dev/nvme1n1  S123    disk"

/-- Witness for C4: two failures then a success return the parsed
device on the third attempt, after backoff sleeps of 1 and 4. -/
theorem getNvmeDevices_retry_backoff_witness :
    getNvmeDevices execTwoFailures 5 = ([1, 4], Except.ok ["/dev/nvme1n1"]) := by
  have h := (getNvmeDevices_retry_backoff execTwoFailures 5).2 3
    "Node          SN      Model\n/dev/nvme1n1  S123    disk"
    (by omega) (by omega) rfl (by decide)
  exact h.trans (by decide)

/-- C2: the claim fails on the code.  `get_volume_paths` always returns
the one-element list `[device_path]`, which is truthy even when
`device_path` is `None` or empty, so `extend_volume` always delegates to
the external resize primitive with that list and its
`raise VolumePathsNotFound` branch is unreachable.  In particular, with
`device_path = None` the resize primitive is invoked on `[None]`. -/
theorem extend_volume_always_delegates (props : ConnectionProperties) :
    extend_volume props = Except.ok [props.device_path] := rfl

/-- Shared helper: an unenumerated resolved path short-circuits
`disconnect_volume` into a successful return with no command issued
(nvme.py lines 194-197). -/
theorem disconnect_noop_of_not_mem (props : ConnectionProperties)
    (device_info : Option DeviceInfoDict) (current : List String)
    (cmdOk force ignore_errors : Bool)
    (h : resolveDevicePath props device_info ∉ current) :
    disconnect_volume props device_info (Except.ok current) cmdOk force ignore_errors =
      (false, Except.ok ()) := by
  simp [disconnect_volume, h]

/-- C6: when the resolved target path is not among the currently
enumerated devices, `disconnect_volume` issues no detach command and
returns successfully, whatever the detach command would have done and
whatever the flags are. -/
theorem disconnect_volume_idempotent_noop (props : ConnectionProperties)
    (device_info : Option DeviceInfoDict) (current : List String)
    (cmdOk force ignore_errors : Bool)
    (h : resolveDevicePath props device_info ∉ current) :
    disconnect_volume props device_info (Except.ok current) cmdOk force ignore_errors =
      (false, Except.ok ()) :=
  disconnect_noop_of_not_mem props device_info current cmdOk force ignore_errors h

/-- A descriptor used by the closed witness instances below. -/
def propsA : ConnectionProperties :=
  { nqn := "nqn.2014-08.org.nvmexpress:uuid:1"
    target_portal := "10.0.0.1"
    target_port := "4420"
    transport_type := "rdma"
    host_nqn := none
    device_path := some "/dev/nvme2n1" }

/-- Witness for C6: detaching `/dev/nvme2n1` while only `/dev/nvme0n1`
is enumerated is a successful no-op. -/
theorem disconnect_volume_idempotent_noop_witness :
    disconnect_volume propsA none (Except.ok ["/dev/nvme0n1"]) true false false =
      (false, Except.ok ()) :=
  disconnect_volume_idempotent_noop propsA none ["/dev/nvme0n1"] true false false
    (by decide)

/-- C7: when the resolved target path is currently enumerated and the
detach command fails with a process-execution failure, the failure is
suppressed and the call returns successfully when `ignore_errors` is
true, and the same failure propagates when `ignore_errors` is false; in
both cases the detach command was issued. -/
theorem disconnect_volume_error_suppression (props : ConnectionProperties)
    (device_info : Option DeviceInfoDict) (current : List String) (force : Bool)
    (h : resolveDevicePath props device_info ∈ current) :
    disconnect_volume props device_info (Except.ok current) false force true =
      (true, Except.ok ()) ∧
    disconnect_volume props device_info (Except.ok current) false force false =
      (true, Except.error BrickError.processExecutionError) := by
  constructor <;> simp [disconnect_volume, h]

/-- Witness for C7: a failing detach of the enumerated `/dev/nvme0n1`
is suppressed with `ignore_errors` and propagated without it. -/
theorem disconnect_volume_error_suppression_witness :
    disconnect_volume propsA (some { path := some "/dev/nvme0n1" })
        (Except.ok ["/dev/nvme0n1"]) false false true = (true, Except.ok ()) ∧
    disconnect_volume propsA (some { path := some "/dev/nvme0n1" })
        (Except.ok ["/dev/nvme0n1"]) false false false =
      (true, Except.error BrickError.processExecutionError) :=
  disconnect_volume_error_suppression propsA (some { path := some "/dev/nvme0n1" })
    ["/dev/nvme0n1"] false (by decide)

/-- A successful regex match is never the empty character list: it
starts with the literal `/dev/nvme`. -/
theorem matchNvme_ne_nil (line l : List Char) (h : matchNvme line = some l) :
    l ≠ [] := by
  unfold matchNvme at h
  split at h
  · exact absurd h (by simp)
  · split at h
    · exact absurd h (by simp)
    · split at h
      · split at h
        · exact absurd h (by simp)
        · have hl : nvmeHead ++ _ = l := Option.some.inj h
          intro hnil
          rw [hnil] at hl
          exact absurd (List.append_eq_nil.mp hl).1 (by decide)
      · exact absurd h (by simp)

/-- Every device path produced by the output parser is a non-empty
string. -/
theorem parseNvmeDevices_ne_empty (out : String) (x : String)
    (hx : x ∈ parseNvmeDevices out) : x ≠ "" := by
  rw [parseNvmeDevices] at hx
  rcases List.mem_map.mp hx with ⟨l, hl, rfl⟩
  rcases List.mem_filterMap.mp hl with ⟨line, _, hm⟩
  have hne : l ≠ [] := matchNvme_ne_nil line l hm
  intro he
  apply hne
  have : (String.mk l).data = ("" : String).data := by rw [he]
  simpa using this

/-- C10: when the device-info argument supplies no (truthy) path and the
descriptor's `device_path` is `None` or the empty string, the target
resolves to the empty string; the empty string is never among the
devices parsed from a listing output, so `disconnect_volume` issues no
detach command and returns successfully. -/
theorem disconnect_volume_empty_path_noop (props : ConnectionProperties)
    (device_info : Option DeviceInfoDict) (out : String)
    (cmdOk force ignore_errors : Bool)
    (hprops : props.device_path = none ∨ props.device_path = some "")
    (hdi : ∀ d, device_info = some d → d.path = none ∨ d.path = some "") :
    resolveDevicePath props device_info = "" ∧
    disconnect_volume props device_info (Except.ok (parseNvmeDevices out))
        cmdOk force ignore_errors = (false, Except.ok ()) := by
  have hres : resolveDevicePath props device_info = "" := by
    have hor : orEmptyString props.device_path = "" := by
      rcases hprops with h | h <;> simp [h, orEmptyString]
    cases device_info with
    | none => simpa [resolveDevicePath] using hor
    | some d =>
      rcases hdi d rfl with h | h <;> simp [resolveDevicePath, h, hor]
  refine ⟨hres, disconnect_noop_of_not_mem _ _ _ _ _ _ ?_⟩
  rw [hres]
  intro hmem
  exact parseNvmeDevices_ne_empty out "" hmem rfl

/-- Witness for C10: with `device_path = ''` in the descriptor and a
path-less device-info dict, disconnecting against a parsed listing
output is a successful no-op. -/
theorem disconnect_volume_empty_path_noop_witness :
    resolveDevicePath { device_path := some "" } (some { path := none }) = "" ∧
    disconnect_volume { device_path := some "" } (some { path := none })
        (Except.ok (parseNvmeDevices "Node\n/dev/nvme0n1 S1 disk"))
        true false false = (false, Except.ok ()) :=
  disconnect_volume_empty_path_noop { device_path := some "" }
    (some { path := none }) "Node\n/dev/nvme0n1 S1 disk" true false false
    (Or.inr rfl)
    (fun d hd => by
      rw [Option.some.inj hd.symm]
      exact Or.inl rfl)

/-- A retry whose every attempt fails with a retryable error performs
every budgeted attempt and surfaces that error. -/
theorem retryFrom_all_fail {α : Type} (retryOn : BrickError → Bool)
    (op : Nat → Except BrickError α) (e : BrickError) (he : retryOn e = true)
    (h : ∀ i, op i = Except.error e) :
    ∀ fuel i, retryFrom retryOn op i fuel = (fuel + 1, Except.error e) := by
  intro fuel
  induction fuel with
  | zero => intro i; simp [retryFrom, h i]
  | succ m ih => intro i; simp [retryFrom, h i, he, ih (i + 1)]

/-- The diff of `_get_device_path` is empty whenever the enumeration
yields no device outside the snapshot. -/
theorem setDiff_eq_nil (all current : List String)
    (h : ∀ x ∈ all, x ∈ current) : setDiff all current = [] := by
  rw [setDiff]
  have hf : all.filter (fun x => decide (x ∉ current)) = [] :=
    List.filter_eq_nil_iff.mpr (by intro a ha; simpa using h a ha)
  rw [hf, List.dedup_nil]

/-- C3: when every appearance-detection enumeration yields a device set
equal to the pre-attach snapshot, `connect_volume` performs exactly the
configured maximum number of appearance-detection attempts and raises
`VolumePathsNotFound`, with no attempt beyond that budget. -/
theorem connect_volume_exhaustion (props : ConnectionProperties)
    (listDev : Nat → Except BrickError (List String))
    (tryConnect : List String → Except BrickError Unit)
    (maxDetectAttempts : Nat) (devs : List String)
    (hmax : 1 ≤ maxDetectAttempts)
    (h0 : listDev 0 = Except.ok devs)
    (hconn : tryConnect (buildConnectCmd props) = Except.ok ())
    (hafter : ∀ i, ∃ l, listDev (i + 1) = Except.ok l ∧ ∀ x, x ∈ l ↔ x ∈ devs) :
    connect_volume props listDev tryConnect maxDetectAttempts =
      (maxDetectAttempts, Except.error BrickError.volumePathsNotFound) := by
  have hop : ∀ i, getDevicePathOnce listDev devs i =
      Except.error BrickError.volumePathsNotFound := by
    intro i
    obtain ⟨l, hl, hmem⟩ := hafter i
    rw [getDevicePathOnce, hl]
    have hnil : setDiff l devs = [] :=
      setDiff_eq_nil l devs (fun x hx => (hmem x).mp hx)
    simp [hnil]
  simp only [connect_volume, h0, hconn]
  rw [retryFrom_all_fail retryOnPathsNotFound _ BrickError.volumePathsNotFound rfl hop
    (maxDetectAttempts - 1) 0]
  have hm : maxDetectAttempts - 1 + 1 = maxDetectAttempts := by omega
  rw [hm]
  rfl

/-- An enumeration oracle for which the device set never changes. -/
def listDevStatic : Nat → Except BrickError (List String) :=
  fun _ => Except.ok ["/dev/nvme0n1"]

/-- Witness for C3: with a never-changing device set and a detection
budget of 3 attempts, the attach performs exactly 3 attempts and raises
`VolumePathsNotFound`. -/
theorem connect_volume_exhaustion_witness :
    connect_volume propsA listDevStatic (fun _ => Except.ok ()) 3 =
      (3, Except.error BrickError.volumePathsNotFound) :=
  connect_volume_exhaustion propsA listDevStatic (fun _ => Except.ok ()) 3
    ["/dev/nvme0n1"] (by omega) rfl rfl
    (fun _ => ⟨["/dev/nvme0n1"], rfl, fun _ => Iff.rfl⟩)

/-- The enumeration oracle of the spec's diff-correctness scenario:
`/dev/nvme0n1` before the attach command, and `/dev/nvme0n1` together
with `/dev/nvme1n1` on every later enumeration. -/
def listDevC1 : Nat → Except BrickError (List String) :=
  fun i =>
    if i = 0 then Except.ok ["/dev/nvme0n1"]
    else Except.ok ["/dev/nvme0n1", "/dev/nvme1n1"]

/-- C1: with pre-attach snapshot `{/dev/nvme0n1}` and every post-attach
enumeration yielding `{/dev/nvme0n1, /dev/nvme1n1}`, `connect_volume`
succeeds on the first detection attempt and returns the device-info
dict whose `type` entry (the spec's `kind`) is the constant `block` and
whose `path` entry is `/dev/nvme1n1`, the single element of the diff. -/
theorem connect_volume_diff_correctness (props : ConnectionProperties)
    (maxDetectAttempts : Nat) (hmax : 1 ≤ maxDetectAttempts) :
    connect_volume props listDevC1 (fun _ => Except.ok ()) maxDetectAttempts =
      (1, Except.ok { type := "block", path := "/dev/nvme1n1" }) := by
  obtain ⟨m, rfl⟩ : ∃ m, maxDetectAttempts = m + 1 :=
    ⟨maxDetectAttempts - 1, by omega⟩
  cases m <;> rfl

/-- Witness for C1: the diff-correctness scenario at the attempt budget
3. -/
theorem connect_volume_diff_correctness_witness :
    connect_volume propsA listDevC1 (fun _ => Except.ok ()) 3 =
      (1, Except.ok { type := "block", path := "/dev/nvme1n1" }) :=
  connect_volume_diff_correctness propsA 3 (by omega)

/-- A successful retry outcome is the outcome of one of the attempted
operations. -/
theorem retryFrom_ok_src {α : Type} (retryOn : BrickError → Bool)
    (op : Nat → Except BrickError α) (a : α) :
    ∀ fuel i, (retryFrom retryOn op i fuel).2 = Except.ok a →
      ∃ j, op j = Except.ok a := by
  intro fuel
  induction fuel with
  | zero =>
    intro i h
    simp only [retryFrom] at h
    exact ⟨i, h⟩
  | succ m ih =>
    intro i h
    cases hop : op i with
    | ok b =>
      simp only [retryFrom, hop] at h
      exact ⟨i, hop.trans h⟩
    | error e =>
      cases hr : retryOn e with
      | true =>
        simp only [retryFrom, hop, hr, if_true] at h
        exact ih (i + 1) h
      | false =>
        simp only [retryFrom, hop, hr, if_false] at h
        exact absurd h (by simp)

/-- A successful `_get_device_path` attempt comes from an enumeration
whose diff against the snapshot it returns. -/
theorem getDevicePathOnce_ok (listDev : Nat → Except BrickError (List String))
    (current : List String) (i : Nat) (paths : List String)
    (h : getDevicePathOnce listDev current i = Except.ok paths) :
    ∃ all, listDev (i + 1) = Except.ok all ∧ paths = setDiff all current := by
  rw [getDevicePathOnce] at h
  cases hl : listDev (i + 1) with
  | error e => rw [hl] at h; exact absurd h (by simp)
  | ok all =>
    rw [hl] at h
    by_cases he : (setDiff all current).isEmpty
    · simp only [he, if_true] at h
      exact absurd h (by simp)
    · simp only [he, if_false] at h
      exact ⟨all, rfl, (Except.ok.inj h).symm⟩

/-- Membership in the diff means: enumerated now, absent from the
snapshot. -/
theorem mem_setDiff (x : String) (all current : List String)
    (h : x ∈ setDiff all current) : x ∈ all ∧ x ∉ current := by
  rw [setDiff, List.mem_dedup, List.mem_filter] at h
  exact ⟨h.1, by simpa using h.2⟩

/-- A successful device selection takes the head of a non-empty path
list returned by detection, tagging it with the constant `block`. -/
theorem selectDevice_ok (r : Nat × Except BrickError (List String)) (n : Nat)
    (info : DeviceInfo) (h : selectDevice r = (n, Except.ok info)) :
    ∃ rest, r = (n, Except.ok (info.path :: rest)) ∧ info.type = "block" := by
  obtain ⟨cnt, res⟩ := r
  cases res with
  | error e => simp [selectDevice] at h
  | ok paths =>
    cases paths with
    | nil => simp [selectDevice] at h
    | cons p ps =>
      simp only [selectDevice, Prod.mk.injEq] at h
      obtain ⟨rfl, hinfo⟩ := h
      rw [← Except.ok.inj hinfo]
      exact ⟨ps, rfl, rfl⟩

/-- C5: every successful `connect_volume` returns a path that was absent
from the pre-attach enumeration and present in the post-attach
enumeration from which it was selected (freshness invariant). -/
theorem connect_volume_freshness (props : ConnectionProperties)
    (listDev : Nat → Except BrickError (List String))
    (tryConnect : List String → Except BrickError Unit)
    (maxDetectAttempts n : Nat) (info : DeviceInfo)
    (h : connect_volume props listDev tryConnect maxDetectAttempts =
      (n, Except.ok info)) :
    ∃ before, listDev 0 = Except.ok before ∧ info.path ∉ before ∧
      ∃ k, 1 ≤ k ∧ ∃ after, listDev k = Except.ok after ∧ info.path ∈ after := by
  unfold connect_volume at h
  split at h
  · exact absurd h (by simp)
  · rename_i before h0
    split at h
    · exact absurd h (by simp)
    · obtain ⟨rest, hr, _⟩ := selectDevice_ok _ _ _ h
      have hsnd : (retryFrom retryOnPathsNotFound
          (getDevicePathOnce listDev before) 0 (maxDetectAttempts - 1)).2 =
            Except.ok (info.path :: rest) := by rw [hr]
      obtain ⟨j, hj⟩ := retryFrom_ok_src _ _ _ _ _ hsnd
      obtain ⟨all, hall, hpaths⟩ := getDevicePathOnce_ok listDev before j _ hj
      have hmem : info.path ∈ setDiff all before := by
        rw [← hpaths]
        exact List.mem_cons_self _ _
      obtain ⟨hin, hout⟩ := mem_setDiff _ _ _ hmem
      exact ⟨before, h0, hout, j + 1, by omega, all, hall, hin⟩

/-- Witness for C5: in the diff-correctness scenario the returned path
`/dev/nvme1n1` is fresh: absent before the attach, present after. -/
theorem connect_volume_freshness_witness :
    ∃ before, listDevC1 0 = Except.ok before ∧ "/dev/nvme1n1" ∉ before ∧
      ∃ k, 1 ≤ k ∧ ∃ after, listDevC1 k = Except.ok after ∧
        "/dev/nvme1n1" ∈ after :=
  connect_volume_freshness propsA listDevC1 (fun _ => Except.ok ()) 3 1
    { type := "block", path := "/dev/nvme1n1" } rfl
